import Mathlib

set_option autoImplicit false

namespace Magina

/- ## String primitives used by the Go code (package strings, base64, UTF-8) -/

/-- Embedding of Go `strings.HasPrefix(s, pre)` on character lists. -/
def chStarts : List Char → List Char → Bool
  | _, [] => true
  | [], _ :: _ => false
  | c :: s, p :: ps => c = p && chStarts s ps

/-- Embedding of Go `strings.Contains(s, sub)` on character lists:
true iff `sub` occurs as a contiguous run anywhere in `s`. -/
def chContains : List Char → List Char → Bool
  | [], sub => chStarts [] sub
  | c :: t, sub => chStarts (c :: t) sub || chContains t sub

/-- Go `strings.HasPrefix`. -/
def goStarts (s pre : String) : Bool := chStarts s.toList pre.toList

/-- Go `strings.Contains`. -/
def goContains (s sub : String) : Bool := chContains s.toList sub.toList

/-- Go `strings.ToUpper` (ASCII letters; the hosts involved are ASCII). -/
def goToUpper (s : String) : String := String.mk (s.toList.map Char.toUpper)

/-- Go `strings.TrimSpace`. -/
def goTrimSpace (s : String) : String :=
  String.mk (((s.toList.dropWhile Char.isWhitespace).reverse.dropWhile Char.isWhitespace).reverse)

/-- UTF-8 bytes of one code point (values as `Nat`). -/
def utf8Bytes (n : Nat) : List Nat :=
  if n < 0x80 then [n]
  else if n < 0x800 then [0xC0 + n / 64, 0x80 + n % 64]
  else if n < 0x10000 then [0xE0 + n / 4096, 0x80 + (n / 64) % 64, 0x80 + n % 64]
  else [0xF0 + n / 262144, 0x80 + (n / 4096) % 64, 0x80 + (n / 64) % 64, 0x80 + n % 64]

/-- The standard base64 alphabet (RFC 4648), as used by Go `base64.StdEncoding`. -/
def b64Alphabet : List Char :=
  "ABCDEFGHIJKLMNOPQRSTUVWXYZabcdefghijklmnopqrstuvwxyz0123456789+/".toList

def b64Char (n : Nat) : Char := b64Alphabet.getD n 'A'

/-- Base64 (standard, padded) of a byte list, as Go `base64.StdEncoding.EncodeToString`. -/
def b64Encode : List Nat → List Char
  | [] => []
  | [a] => [b64Char (a / 4), b64Char (a % 4 * 16), '=', '=']
  | [a, b] => [b64Char (a / 4), b64Char (a % 4 * 16 + b / 16), b64Char (b % 16 * 4), '=']
  | a :: b :: c :: rest =>
    b64Char (a / 4) :: b64Char (a % 4 * 16 + b / 16) :: b64Char (b % 16 * 4 + c / 64) ::
      b64Char (c % 64) :: b64Encode rest

/-- Go `base64.StdEncoding.EncodeToString([]byte(s))`. -/
def base64EncodeStr (s : String) : String :=
  String.mk (b64Encode ((s.toList.map fun c => utf8Bytes c.toNat).flatten))

/- ## Data model (internal/config.go) -/

/-- internal/auth.go: `Credentials{Username, Password, Auth}`. -/
structure Credentials where
  Username : String
  Password : String
  Auth : String
deriving DecidableEq, Repr

/-- internal/config.go: `Registry{Host}`. -/
structure Registry where
  Host : String
deriving DecidableEq, Repr

/-- internal/config.go: `ImageMapping{Source, Destination}`. -/
structure ImageMapping where
  Source : String
  Destination : String
deriving DecidableEq, Repr

/-- internal/config.go: `Block`. -/
structure Block where
  SourceRegistry : Registry
  DestinationRegistry : Registry
  ImageMappings : List ImageMapping
  Exclusions : List String
deriving DecidableEq, Repr

/- ## Exclusion rules (the three isExcluded functions) -/

/-- ExportHandler.isExcluded: plain substring match of each exclusion in the image. -/
def exportIsExcluded (image : String) (exclusions : List String) : Bool :=
  exclusions.any fun exclusion => goContains image exclusion

/-- ImportHandler.isExcluded: plain substring match of each exclusion in the image. -/
def importIsExcluded (image : String) (exclusions : List String) : Bool :=
  exclusions.any fun exclusion => goContains image exclusion

/-- ConvertHandler.isExcluded (internal/convert.go): only exclusions that start with
the marker `!` are considered; for those, the marker is stripped and a substring
match (`strings.Contains`) of the remaining pattern in the image decides. -/
def convertIsExcluded (image : String) (exclusions : List String) : Bool :=
  exclusions.any fun exclusion =>
    goStarts exclusion "!" && goContains image (String.mk (exclusion.toList.drop 1))

/-- Modelled from the spec's words (§4.3), for comparison with `convertIsExcluded`:
"Exclusion matching here is pattern-based (prefix match after stripping a leading
exclusion marker)" — strip a leading `!` if present, then test whether the image
STARTS WITH the stripped pattern. -/
def specConvertExcluded (image : String) (exclusions : List String) : Bool :=
  exclusions.any fun pat =>
    goStarts image
      (String.mk (if goStarts pat "!" then pat.toList.drop 1 else pat.toList))

/- ## Options and result records -/

/-- internal: `ExportOptions`. -/
structure ExportOptions where
  CleanOnError : Bool
  VerboseLevel : Nat
  Credentials : Option Credentials
deriving DecidableEq, Repr

/-- internal/convert.go: `ConvertOptions`. -/
structure ConvertOptions where
  CleanOnError : Bool
  VerboseLevel : Nat
deriving DecidableEq, Repr

/-- internal/import.go: `ImportOptions`. -/
structure ImportOptions where
  CleanOnError : Bool
  VerboseLevel : Nat
  Credentials : Option Credentials
deriving DecidableEq, Repr

/-- Transfer orchestrator options. -/
structure TransferOptions where
  CleanOnError : Bool
  VerboseLevel : Nat
  ResumeOnError : Bool
deriving DecidableEq, Repr

/-- `ExportResult{SourceImage, LocalImage, Error}`; `Error = none` is success. -/
structure ExportResult where
  SourceImage : String
  LocalImage : String
  Error : Option String
deriving DecidableEq, Repr

/-- internal/convert.go: `ConvertResult{SourceImage, LocalImage, DestinationImage, Error}`. -/
structure ConvertResult where
  SourceImage : String
  LocalImage : String
  DestinationImage : String
  Error : Option String
deriving DecidableEq, Repr

/-- internal/import.go: `ImportResult{LocalImage, DestinationImage, Error}`. -/
structure ImportResult where
  LocalImage : String
  DestinationImage : String
  Error : Option String
deriving DecidableEq, Repr

/-- `TransferPhase` constants EXPORT / CONVERT / IMPORT. -/
inductive TransferPhase where
  | EXPORT
  | CONVERT
  | IMPORT
deriving DecidableEq, Repr

/-- `TransferResult`; `Phase = none` models the Go zero value (untagged result). -/
structure TransferResult where
  Phase : Option TransferPhase
  SourceImage : String
  LocalImage : String
  DestinationImage : String
  Error : Option String
deriving DecidableEq, Repr

/- ## Registry-transport collaborator (go-containerregistry), kept opaque -/

/-- `authn.AuthConfig`. -/
structure AuthConfig where
  Username : String
  Password : String
  Auth : String
deriving DecidableEq, Repr

/-- `authn.Authenticator`: either `authn.Anonymous` or `authn.FromConfig cfg`. -/
inductive Authenticator where
  | anonymous
  | fromConfig (cfg : AuthConfig)
deriving DecidableEq, Repr

/-- The opaque registry-transport collaborator (spec §1): reference parsing and
fetch/store keyed by reference string and authenticator. Each operation returns
`none` on success or `some e` carrying the error text `e`. `remoteImage` models
`remote.Image` as called by the convert stage (no authentication option). -/
structure Transport where
  parseRef : String → Option String
  remoteGet : String → Authenticator → Option String
  descImage : String → Option String
  remoteImage : String → Option String
  remoteWrite : String → Authenticator → Option String

/-- ExportHandler.getAuthConfig: anonymous when no credentials are set, otherwise
`authn.FromConfig` carrying Username, Password and Auth. -/
def exportGetAuthConfig (creds : Option Credentials) : Authenticator :=
  match creds with
  | none => .anonymous
  | some c => .fromConfig ⟨c.Username, c.Password, c.Auth⟩

/-- ImportHandler.getAuthConfig (internal/import.go): anonymous when no credentials
are set, otherwise `authn.FromConfig` carrying Username and Password only. -/
def importGetAuthConfig (creds : Option Credentials) : Authenticator :=
  match creds with
  | none => .anonymous
  | some c => .fromConfig ⟨c.Username, c.Password, ""⟩

/- ## Block validation (one function per handler) -/

/-- ExportHandler.validateExportBlock. -/
def validateExportBlock : Option Block → Option String
  | none => some "block cannot be nil"
  | some b =>
    if b.SourceRegistry.Host = "" then some "source registry host cannot be empty"
    else if b.ImageMappings = [] then some "no image mappings found"
    else none

/-- ConvertHandler.validateConvertBlock (internal/convert.go). -/
def validateConvertBlock : Option Block → Option String
  | none => some "le bloc ne peut pas être nil"
  | some b =>
    if b.DestinationRegistry.Host = "" then
      some "l'hôte du registre de destination ne peut pas être vide"
    else if b.ImageMappings = [] then some "aucun mapping d'image trouvé"
    else none

/-- ImportHandler.validateImportBlock (internal/import.go). -/
def validateImportBlock : Option Block → Option String
  | none => some "block cannot be nil"
  | some b =>
    if b.DestinationRegistry.Host = "" then some "destination registry host cannot be empty"
    else if b.ImageMappings = [] then some "no image mappings found"
    else none

/-- TransferHandler.validateTransferBlock. -/
def validateTransferBlock : Option Block → Option String
  | none => some "the block cannot be nil"
  | some b =>
    if b.SourceRegistry.Host = "" then some "the source registry host cannot be empty"
    else if b.DestinationRegistry.Host = "" then
      some "the destination registry host cannot be empty"
    else if b.ImageMappings = [] then some "no image mappings found"
    else none

/- ## Per-image operations -/

/-- ExportHandler.exportSingleImage: parse both references, `remote.Get` the source,
take the image from the descriptor, `remote.Write` it under the local reference. -/
def exportSingleImage (tr : Transport) (sourceImage localImage : String)
    (auth : Authenticator) : ExportResult :=
  match tr.parseRef sourceImage with
  | some e => ⟨sourceImage, localImage, some ("failed to parse source image reference: " ++ e)⟩
  | none =>
  match tr.parseRef localImage with
  | some e => ⟨sourceImage, localImage, some ("failed to parse local image reference: " ++ e)⟩
  | none =>
  match tr.remoteGet sourceImage auth with
  | some e => ⟨sourceImage, localImage, some ("failed to load source image: " ++ e)⟩
  | none =>
  match tr.descImage sourceImage with
  | some e => ⟨sourceImage, localImage, some ("failed to get image from descriptor: " ++ e)⟩
  | none =>
  match tr.remoteWrite localImage auth with
  | some e => ⟨sourceImage, localImage, some ("failed to save image locally: " ++ e)⟩
  | none => ⟨sourceImage, localImage, none⟩

/-- ConvertHandler.convertSingleImage (internal/convert.go): parse the local and
destination references, `remote.Image` the local one, `remote.Write` it under the
destination reference; no authentication option is passed. -/
def convertSingleImage (tr : Transport) (sourceImage localImage destinationImage : String) :
    ConvertResult :=
  match tr.parseRef localImage with
  | some e =>
    ⟨sourceImage, localImage, destinationImage,
      some ("échec de l'analyse de la référence de l'image locale : " ++ e)⟩
  | none =>
  match tr.parseRef destinationImage with
  | some e =>
    ⟨sourceImage, localImage, destinationImage,
      some ("échec de l'analyse de la référence de l'image de destination : " ++ e)⟩
  | none =>
  match tr.remoteImage localImage with
  | some e =>
    ⟨sourceImage, localImage, destinationImage,
      some ("échec du chargement de l'image locale : " ++ e)⟩
  | none =>
  match tr.remoteWrite destinationImage .anonymous with
  | some e =>
    ⟨sourceImage, localImage, destinationImage, some ("échec de l'écriture de l'image : " ++ e)⟩
  | none => ⟨sourceImage, localImage, destinationImage, none⟩

/-- ImportHandler.importSingleImage (internal/import.go): parse both references,
`remote.Get` the local reference, take the image from the descriptor,
`remote.Write` it under the destination reference. -/
def importSingleImage (tr : Transport) (localImage destImage : String)
    (auth : Authenticator) : ImportResult :=
  match tr.parseRef localImage with
  | some e => ⟨localImage, destImage, some ("failed to parse local image reference: " ++ e)⟩
  | none =>
  match tr.parseRef destImage with
  | some e => ⟨localImage, destImage, some ("failed to parse destination image reference: " ++ e)⟩
  | none =>
  match tr.remoteGet localImage auth with
  | some e => ⟨localImage, destImage, some ("failed to load local image: " ++ e)⟩
  | none =>
  match tr.descImage localImage with
  | some e => ⟨localImage, destImage, some ("failed to get image from descriptor: " ++ e)⟩
  | none =>
  match tr.remoteWrite destImage auth with
  | some e => ⟨localImage, destImage, some ("failed to push image: " ++ e)⟩
  | none => ⟨localImage, destImage, none⟩

/- ## Stage loops (the result streams, modelled as the list of emitted results) -/

/-- The mapping loop of ExportHandler.ExportImages: skip mappings whose Source is
excluded, otherwise export `mapping.Source` to `mapping.Destination`. -/
def processExportMappings (tr : Transport) (auth : Authenticator) (exclusions : List String) :
    List ImageMapping → List ExportResult
  | [] => []
  | m :: rest =>
    if exportIsExcluded m.Source exclusions then processExportMappings tr auth exclusions rest
    else exportSingleImage tr m.Source m.Destination auth ::
          processExportMappings tr auth exclusions rest

/-- ExportHandler.ExportImages: the stream of results emitted for `block`. -/
def ExportImages (tr : Transport) (options : ExportOptions) (block : Option Block) :
    List ExportResult :=
  match validateExportBlock block with
  | some e => [⟨"", "", some e⟩]
  | none =>
    match block with
    | none => []
    | some b =>
      processExportMappings tr (exportGetAuthConfig options.Credentials)
        b.Exclusions b.ImageMappings

/-- The mapping loop of ConvertHandler.ConvertImages (internal/convert.go): skip
mappings whose Source is excluded (convert rule), otherwise
`convertSingleImage(mapping.Source, mapping.Source, mapping.Destination)`. -/
def processConvertMappings (tr : Transport) (exclusions : List String) :
    List ImageMapping → List ConvertResult
  | [] => []
  | m :: rest =>
    if convertIsExcluded m.Source exclusions then processConvertMappings tr exclusions rest
    else convertSingleImage tr m.Source m.Source m.Destination ::
          processConvertMappings tr exclusions rest

/-- ConvertHandler.ConvertImages: the stream of results emitted for `block`. -/
def ConvertImages (tr : Transport) (_options : ConvertOptions) (block : Option Block) :
    List ConvertResult :=
  match validateConvertBlock block with
  | some e => [⟨"", "", "", some e⟩]
  | none =>
    match block with
    | none => []
    | some b => processConvertMappings tr b.Exclusions b.ImageMappings

/-- The mapping loop of ImportHandler.ImportImages (internal/import.go): skip
mappings whose Destination is excluded, otherwise
`importSingleImage(mapping.Source, mapping.Destination, auth)`. -/
def processImportMappings (tr : Transport) (auth : Authenticator) (exclusions : List String) :
    List ImageMapping → List ImportResult
  | [] => []
  | m :: rest =>
    if importIsExcluded m.Destination exclusions then processImportMappings tr auth exclusions rest
    else importSingleImage tr m.Source m.Destination auth ::
          processImportMappings tr auth exclusions rest

/-- ImportHandler.ImportImages: the stream of results emitted for `block`. -/
def ImportImages (tr : Transport) (options : ImportOptions) (block : Option Block) :
    List ImportResult :=
  match validateImportBlock block with
  | some e => [⟨"", "", some e⟩]
  | none =>
    match block with
    | none => []
    | some b =>
      processImportMappings tr (importGetAuthConfig options.Credentials)
        b.Exclusions b.ImageMappings

/- ## Credential stores (internal/session.go and internal/auth.go) -/

/-- The interactive terminal, kept opaque: `readUsername` / `readPassword` model
fallible line reads (bufio / term.ReadPassword), `scanUsername` models
`fmt.Scanln` whose error the auth handler ignores. Each is keyed by the
registry URL being prompted for. -/
structure Terminal where
  readUsername : String → Except String String
  readPassword : String → Except String String
  scanUsername : String → String

/-- Lookup in the in-process credential map (Go `map[string]*Credentials`),
modelled as an association list. -/
def sessionLookup : List (String × Credentials) → String → Option Credentials
  | [], _ => none
  | (k, c) :: rest, host => if k = host then some c else sessionLookup rest host

/-- Session.promptCredentials (internal/session.go): read username then password,
wrapping read failures; trim both; `Auth` is left at its zero value. -/
def sessionPromptCredentials (t : Terminal) (registryURL : String) :
    Except String Credentials :=
  match t.readUsername registryURL with
  | .error e => .error ("failed to read username: " ++ e)
  | .ok username =>
    match t.readPassword registryURL with
    | .error e => .error ("failed to read password: " ++ e)
    | .ok password => .ok ⟨goTrimSpace username, goTrimSpace password, ""⟩

/-- Session.GetCredentials (internal/session.go): return the cached entry on a
cache hit; otherwise prompt the user and cache the result. Returns the result
together with the updated cache. -/
def sessionGetCredentials (t : Terminal) (cache : List (String × Credentials))
    (registryURL : String) : Except String Credentials × List (String × Credentials) :=
  match sessionLookup cache registryURL with
  | some creds => (.ok creds, cache)
  | none =>
    match sessionPromptCredentials t registryURL with
    | .error e => (.error e, cache)
    | .ok creds => (.ok creds, (registryURL, creds) :: cache)

/-- The host-to-environment-prefix transform of AuthHandler.getCredsFromEnv
(internal/auth.go): the `strings.NewReplacer("https://", "", "http://", "", ".",
"_", "/", "_", "-", "_")` applied to the ALREADY UPPERCASED registry URL.  Note
the protocol patterns are lowercase and therefore can never match the uppercased
input. -/
def goEnvReplace : List Char → List Char
  | 'h' :: 't' :: 't' :: 'p' :: 's' :: ':' :: '/' :: '/' :: rest => goEnvReplace rest
  | 'h' :: 't' :: 't' :: 'p' :: ':' :: '/' :: '/' :: rest => goEnvReplace rest
  | '.' :: rest => '_' :: goEnvReplace rest
  | '/' :: rest => '_' :: goEnvReplace rest
  | '-' :: rest => '_' :: goEnvReplace rest
  | c :: rest => c :: goEnvReplace rest
  | [] => []

/-- The environment-variable prefix derived from a registry URL:
`Replace(strings.ToUpper(registryURL))`. -/
def hostEnvKey (registryURL : String) : String :=
  String.mk (goEnvReplace (goToUpper registryURL).toList)

/-- AuthHandler.getCredsFromEnv (internal/auth.go): look up
`<prefix>_USERNAME` / `<prefix>_PASSWORD`; both must be non-empty (Go
`os.Getenv` returns "" when unset, modelled by a total environment map). -/
def getCredsFromEnv (env : String → String) (registryURL : String) :
    Except String Credentials :=
  let username := env (hostEnvKey registryURL ++ "_USERNAME")
  let password := env (hostEnvKey registryURL ++ "_PASSWORD")
  if username = "" || password = "" then .error "credentials not found in environment"
  else .ok ⟨username, password, base64EncodeStr (username ++ ":" ++ password)⟩

/-- AuthHandler.promptCredentials (internal/auth.go): `fmt.Scanln` for the
username (error ignored), masked password read (fallible), trim both, and derive
the base64 `Auth` field. -/
def authPromptCredentials (t : Terminal) (registryURL : String) :
    Except String Credentials :=
  let username := t.scanUsername registryURL
  match t.readPassword registryURL with
  | .error e => .error ("failed to read password: " ++ e)
  | .ok password =>
    .ok ⟨goTrimSpace username, goTrimSpace password,
      base64EncodeStr (goTrimSpace username ++ ":" ++ goTrimSpace password)⟩

/-- AuthHandler.GetCredentials (internal/auth.go): cache hit → cached entry;
miss → environment lookup (cached on success); further miss → interactive
prompt (cached on success). -/
def authGetCredentials (env : String → String) (t : Terminal)
    (configs : List (String × Credentials)) (registryURL : String) :
    Except String Credentials × List (String × Credentials) :=
  match sessionLookup configs registryURL with
  | some creds => (.ok creds, configs)
  | none =>
    match getCredsFromEnv env registryURL with
    | .ok creds => (.ok creds, (registryURL, creds) :: configs)
    | .error _ =>
      match authPromptCredentials t registryURL with
      | .error e => (.error e, configs)
      | .ok creds => (.ok creds, (registryURL, creds) :: configs)

/- ## Transfer orchestrator (the three-phase TransferImages variant) -/

/-- Wrap an export result as `TransferResult{Phase: EXPORT, SourceImage, LocalImage, Error}`. -/
def wrapExport (r : ExportResult) : TransferResult :=
  ⟨some .EXPORT, r.SourceImage, r.LocalImage, "", r.Error⟩

/-- Wrap a convert result as `TransferResult{Phase: CONVERT, ...}` with all fields. -/
def wrapConvert (r : ConvertResult) : TransferResult :=
  ⟨some .CONVERT, r.SourceImage, r.LocalImage, r.DestinationImage, r.Error⟩

/-- Wrap an import result as `TransferResult{Phase: IMPORT, LocalImage, DestinationImage, Error}`. -/
def wrapImport (r : ImportResult) : TransferResult :=
  ⟨some .IMPORT, "", r.LocalImage, r.DestinationImage, r.Error⟩

/-- The per-phase forwarding loop of TransferImages: every stage result is
forwarded; after forwarding a failing result with `resumeOnError` unset the loop
returns (second component: whether the run aborted there). -/
def forwardLoop {α : Type} (isErr : α → Bool) (resume : Bool) :
    List α → List α × Bool
  | [] => ([], false)
  | r :: rest =>
    if isErr r && !resume then ([r], true)
    else
      let out := forwardLoop isErr resume rest
      (r :: out.1, out.2)

/-- The body of TransferImages after successful validation: resolve source then
destination credentials through the session, then run export, convert, import,
forwarding each phase's results with its tag and applying the resume/abort
policy. -/
def transferBody (tr : Transport) (t : Terminal) (options : TransferOptions)
    (cache : List (String × Credentials)) (b : Block) : List TransferResult :=
  match sessionGetCredentials t cache b.SourceRegistry.Host with
  | (.error e, _) =>
    [⟨some .EXPORT, "", "", "", some ("failed to get source credentials: " ++ e)⟩]
  | (.ok sourceCreds, cache1) =>
    match sessionGetCredentials t cache1 b.DestinationRegistry.Host with
    | (.error e, _) =>
      [⟨some .IMPORT, "", "", "", some ("failed to get destination credentials: " ++ e)⟩]
    | (.ok destCreds, _) =>
      let exportResults := ExportImages tr
        ⟨options.CleanOnError, options.VerboseLevel, some sourceCreds⟩ (some b)
      let eOut := forwardLoop (fun r => r.Error.isSome) options.ResumeOnError exportResults
      let eTagged := eOut.1.map wrapExport
      if eOut.2 then eTagged
      else
        let convertResults := ConvertImages tr
          ⟨options.CleanOnError, options.VerboseLevel⟩ (some b)
        let cOut := forwardLoop (fun r => r.Error.isSome) options.ResumeOnError convertResults
        let cTagged := cOut.1.map wrapConvert
        if cOut.2 then eTagged ++ cTagged
        else
          let importResults := ImportImages tr
            ⟨options.CleanOnError, options.VerboseLevel, some destCreds⟩ (some b)
          let iOut := forwardLoop (fun r => r.Error.isSome) options.ResumeOnError importResults
          eTagged ++ cTagged ++ iOut.1.map wrapImport

/-- TransferHandler.TransferImages (three-phase variant, the one the spec adopts
as canonical): validate, resolve both credentials, then run the phases in order
EXPORT, CONVERT, IMPORT. The emitted result stream is modelled as a list. -/
def TransferImages (tr : Transport) (t : Terminal) (options : TransferOptions)
    (cache : List (String × Credentials)) (block : Option Block) : List TransferResult :=
  match validateTransferBlock block with
  | some e => [⟨none, "", "", "", some e⟩]
  | none =>
    match block with
    | none => []
    | some b => transferBody tr t options cache b

/- ## Generic helpers about the loops -/

/-- The emitted results of a phase with `resumeOnError` unset: everything up to
and including the first failing result, nothing after it. -/
def takeThroughFirstErr {α : Type} (isErr : α → Bool) : List α → List α
  | [] => []
  | r :: rest => if isErr r then [r] else r :: takeThroughFirstErr isErr rest

/- ## Concrete fixtures for evaluating the embedding -/

/-- A transport on which every operation succeeds. -/
def trOK : Transport :=
  ⟨fun _ => none, fun _ _ => none, fun _ => none, fun _ => none, fun _ _ => none⟩

/-- A transport modelling a store holding exactly the references in `avail`:
loading (`remote.Get` / `remote.Image`) any other reference fails; parsing and
writing always succeed. -/
def trAvail (avail : List String) : Transport :=
  ⟨fun _ => none,
   fun ref _ => if ref ∈ avail then none else some "not found in local storage",
   fun _ => none,
   fun ref => if ref ∈ avail then none else some "not found in local storage",
   fun _ _ => none⟩

/-- A transport on which `remote.Get` fails exactly at `ref`. -/
def trGetFailAt (ref : String) : Transport :=
  ⟨fun _ => none, fun r _ => if r = ref then some "connection refused" else none,
   fun _ => none, fun _ => none, fun _ _ => none⟩

/-- A transport on which `remote.Write` fails exactly at `ref`. -/
def trWriteFailAt (ref : String) : Transport :=
  ⟨fun _ => none, fun _ _ => none, fun _ => none, fun _ => none,
   fun r _ => if r = ref then some "disk full" else none⟩

/-- A terminal whose prompts always succeed with fixed answers. -/
def termOK : Terminal := ⟨fun _ => .ok "pu", fun _ => .ok "pp", fun _ => "pu"⟩

/-- A terminal on which every read fails. -/
def termFail : Terminal := ⟨fun _ => .error "EOF", fun _ => .error "EOF", fun _ => ""⟩

def credsA : Credentials := ⟨"alice", "secret", ""⟩

/-- A session cache already holding credentials for both test hosts. -/
def cacheSD : List (String × Credentials) := [("src.io", credsA), ("dst.io", credsA)]

/-- A valid test block between the hosts `src.io` and `dst.io`. -/
def blockB (ms : List ImageMapping) (excl : List String) : Block :=
  ⟨⟨"src.io"⟩, ⟨"dst.io"⟩, ms, excl⟩

def optsR (resume : Bool) : TransferOptions := ⟨false, 0, resume⟩

def eopts0 : ExportOptions := ⟨false, 0, none⟩

def copts0 : ConvertOptions := ⟨false, 0⟩

def iopts0 : ImportOptions := ⟨false, 0, none⟩

/-- One mapping whose source and destination references differ. -/
def mapAB : ImageMapping := ⟨"a:1", "b:1"⟩

def blockAB : Block := blockB [mapAB] []

/-- A block that fails every stage's validation: its mapping set is empty. -/
def blockNoMaps : Block := ⟨⟨"src.io"⟩, ⟨"dst.io"⟩, [], ["x"]⟩

/-- An environment holding a complete credential pair for `example.com` under the
names the host-to-variable transform derives. -/
def env5 : String → String := fun k =>
  if k = "EXAMPLE_COM_USERNAME" then "eu"
  else if k = "EXAMPLE_COM_PASSWORD" then "ep"
  else ""

/-- An empty environment. -/
def env0 : String → String := fun _ => ""

theorem forwardLoop_resume {α : Type} (isErr : α → Bool) (l : List α) :
    forwardLoop isErr true l = (l, false) := by
  induction l with
  | nil => rfl
  | cons r rest ih => simp [forwardLoop, ih]

theorem forwardLoop_no_resume {α : Type} (isErr : α → Bool) (l : List α) :
    forwardLoop isErr false l = (takeThroughFirstErr isErr l, l.any isErr) := by
  induction l with
  | nil => rfl
  | cons r rest ih =>
    by_cases h : isErr r = true
    · simp [forwardLoop, takeThroughFirstErr, h]
    · simp at h
      simp [forwardLoop, takeThroughFirstErr, h, ih]

theorem forwardLoop_append {α : Type} (isErr : α → Bool) (resume : Bool) (l : List α) :
    ∃ rest, l = (forwardLoop isErr resume l).1 ++ rest := by
  induction l with
  | nil => exact ⟨[], rfl⟩
  | cons r tail ih =>
    by_cases h : (isErr r && !resume) = true
    · exact ⟨tail, by simp [forwardLoop, h]⟩
    · obtain ⟨rest, hrest⟩ := ih
      exact ⟨rest, by simp only [forwardLoop, h, if_neg]; simpa using congrArg (r :: ·) hrest⟩

theorem takeThroughFirstErr_of_no_err {α : Type} (isErr : α → Bool) (l : List α)
    (h : l.any isErr = false) : takeThroughFirstErr isErr l = l := by
  induction l with
  | nil => rfl
  | cons r rest ih =>
    simp only [List.any_cons, Bool.or_eq_false_iff] at h
    simp [takeThroughFirstErr, h.1, ih h.2]

/- ## The stage loops as filter-and-map -/

theorem processExportMappings_eq (tr : Transport) (auth : Authenticator)
    (exclusions : List String) (ms : List ImageMapping) :
    processExportMappings tr auth exclusions ms =
      (ms.filter fun m => !exportIsExcluded m.Source exclusions).map
        (fun m => exportSingleImage tr m.Source m.Destination auth) := by
  induction ms with
  | nil => rfl
  | cons m rest ih =>
    by_cases h : exportIsExcluded m.Source exclusions = true
    · simp [processExportMappings, List.filter, h, ih]
    · simp at h
      simp [processExportMappings, List.filter, h, ih]

theorem processConvertMappings_eq (tr : Transport) (exclusions : List String)
    (ms : List ImageMapping) :
    processConvertMappings tr exclusions ms =
      (ms.filter fun m => !convertIsExcluded m.Source exclusions).map
        (fun m => convertSingleImage tr m.Source m.Source m.Destination) := by
  induction ms with
  | nil => rfl
  | cons m rest ih =>
    by_cases h : convertIsExcluded m.Source exclusions = true
    · simp [processConvertMappings, List.filter, h, ih]
    · simp at h
      simp [processConvertMappings, List.filter, h, ih]

theorem processImportMappings_eq (tr : Transport) (auth : Authenticator)
    (exclusions : List String) (ms : List ImageMapping) :
    processImportMappings tr auth exclusions ms =
      (ms.filter fun m => !importIsExcluded m.Destination exclusions).map
        (fun m => importSingleImage tr m.Source m.Destination auth) := by
  induction ms with
  | nil => rfl
  | cons m rest ih =>
    by_cases h : importIsExcluded m.Destination exclusions = true
    · simp [processImportMappings, List.filter, h, ih]
    · simp at h
      simp [processImportMappings, List.filter, h, ih]

/-- Counting: keeping the non-excluded mappings leaves `N − E` of them. -/
theorem filter_not_length {α : Type} (p : α → Bool) (l : List α) :
    (l.filter fun a => !p a).length = l.length - l.countP p := by
  induction l with
  | nil => rfl
  | cons a rest ih =>
    have hle : (rest.countP p) ≤ rest.length := List.countP_le_length p
    by_cases h : p a = true
    · simp [List.filter, List.countP_cons, h, ih]
    · simp at h
      simp [List.filter, List.countP_cons, h, ih]
      omega

/- ## Claim theorems -/

/-- C10: every stage operation (export, convert, import, transfer) given a nil
block does not crash: validation rejects it and the stream yields exactly one
error result and closes — for every transport, terminal, option set and cache. -/
theorem nil_block_rejected (tr : Transport) (t : Terminal) (eopts : ExportOptions)
    (copts : ConvertOptions) (iopts : ImportOptions) (topts : TransferOptions)
    (cache : List (String × Credentials)) :
    ExportImages tr eopts none = [⟨"", "", some "block cannot be nil"⟩] ∧
    ConvertImages tr copts none = [⟨"", "", "", some "le bloc ne peut pas être nil"⟩] ∧
    ImportImages tr iopts none = [⟨"", "", some "block cannot be nil"⟩] ∧
    TransferImages tr t topts cache none =
      [⟨none, "", "", "", some "the block cannot be nil"⟩] :=
  ⟨rfl, rfl, rfl, rfl⟩

/-- C7: a block that fails a stage's validation yields exactly one terminal
result carrying the validation error and empty image fields, independently of
the transport (so no per-image fetch/store happens), and the stream closes. -/
theorem validation_failure_terminal (tr : Transport) (eopts : ExportOptions)
    (copts : ConvertOptions) (iopts : ImportOptions) (block : Option Block) (e : String) :
    (validateExportBlock block = some e → ExportImages tr eopts block = [⟨"", "", some e⟩]) ∧
    (validateConvertBlock block = some e →
      ConvertImages tr copts block = [⟨"", "", "", some e⟩]) ∧
    (validateImportBlock block = some e → ImportImages tr iopts block = [⟨"", "", some e⟩]) := by
  refine ⟨fun h => ?_, fun h => ?_, fun h => ?_⟩
  · simp [ExportImages, h]
  · simp [ConvertImages, h]
  · simp [ImportImages, h]

/-- Witness for C7: a block with an empty mapping set is rejected by all three
stages with their respective validation messages, each as a single terminal
result. -/
theorem validation_failure_terminal_witness :
    ExportImages trOK eopts0 (some blockNoMaps) =
      [⟨"", "", some "no image mappings found"⟩] ∧
    ConvertImages trOK copts0 (some blockNoMaps) =
      [⟨"", "", "", some "aucun mapping d'image trouvé"⟩] ∧
    ImportImages trOK iopts0 (some blockNoMaps) =
      [⟨"", "", some "no image mappings found"⟩] :=
  ⟨(validation_failure_terminal trOK eopts0 copts0 iopts0 (some blockNoMaps)
      "no image mappings found").1 rfl,
   (validation_failure_terminal trOK eopts0 copts0 iopts0 (some blockNoMaps)
      "aucun mapping d'image trouvé").2.1 rfl,
   (validation_failure_terminal trOK eopts0 copts0 iopts0 (some blockNoMaps)
      "no image mappings found").2.2 rfl⟩

/-- Counterexample to C6: the claim describes ConvertStage's exclusion decision
as a PREFIX match after stripping the `!` marker, but at image `abc` with
exclusion pattern `!b` the code excludes (substring match of `b`) while the
claimed prefix rule does not (`abc` does not start with `b`). -/
theorem convert_exclusion_not_a_pre_match :
    convertIsExcluded "abc" ["!b"] = true ∧ specConvertExcluded "abc" ["!b"] = false := by
  refine ⟨by decide, by decide⟩

/-- C6 (amended): ConvertStage considers only patterns carrying the leading `!`
marker and then applies a SUBSTRING match of the marker-stripped pattern, while
ExportStage and ImportStage apply a plain substring match of the raw pattern
(the two latter rules coincide); the convert rule and the export rule are
distinct, e.g. image `a` with exclusion `a` is excluded by Export but not by
Convert. -/
theorem convert_exclusion_marker_substring (image pat : String) (excl : List String)
    (hm : goStarts pat "!" = false) :
    convertIsExcluded image [pat] = false ∧
    convertIsExcluded image [String.mk ('!' :: pat.toList)] = exportIsExcluded image [pat] ∧
    exportIsExcluded image excl = importIsExcluded image excl ∧
    exportIsExcluded "a" ["a"] = true ∧ convertIsExcluded "a" ["a"] = false := by
  refine ⟨?_, ?_, rfl, by decide, by decide⟩
  · simp [convertIsExcluded, hm]
  · cases pat with
    | mk l =>
      simp [convertIsExcluded, exportIsExcluded, goStarts, goContains, chStarts]

/-- Witness for C6 (amended), at image `abc` and pattern `b`: `b` carries no
marker so Convert ignores it, while `!b` under Convert behaves exactly like `b`
under Export. -/
theorem convert_exclusion_marker_substring_witness :
    convertIsExcluded "abc" ["b"] = false ∧
    convertIsExcluded "abc" [String.mk ('!' :: "b".toList)] = exportIsExcluded "abc" ["b"] ∧
    exportIsExcluded "abc" ["q"] = importIsExcluded "abc" ["q"] ∧
    exportIsExcluded "a" ["a"] = true ∧ convertIsExcluded "a" ["a"] = false :=
  convert_exclusion_marker_substring "abc" "b" ["q"] (by decide)

/-- Counterexample to C5: credential resolution as performed by the Session
store (the one the CLI and the transfer orchestrator use) does NOT attempt the
environment lookup on a cache miss: with an empty cache, a complete environment
pair for `example.com`, and a working prompt, it returns the prompted
credentials rather than the environment-derived ones. -/
theorem session_skips_env_lookup :
    getCredsFromEnv env5 "example.com" = .ok ⟨"eu", "ep", base64EncodeStr "eu:ep"⟩ ∧
    (sessionGetCredentials termOK [] "example.com").1 = .ok ⟨"pu", "pp", ""⟩ ∧
    (⟨"pu", "pp", ""⟩ : Credentials) ≠ ⟨"eu", "ep", base64EncodeStr "eu:ep"⟩ := by
  refine ⟨rfl, rfl, by decide⟩

/-- C9: ConvertStage decides exclusion on the mapping's Source (the emitted
stream is exactly one `convertSingleImage` per mapping whose Source is not
convert-excluded), and on the concrete block mapping `app:1 → zzz:1` with
exclusion pattern `zzz` — which occurs in the Destination only — ImportStage
emits no result while ConvertStage emits one. -/
theorem convert_excludes_by_source (tr : Transport) (copts : ConvertOptions) (b : Block)
    (hv : validateConvertBlock (some b) = none) :
    ConvertImages tr copts (some b) =
      (b.ImageMappings.filter fun m => !convertIsExcluded m.Source b.Exclusions).map
        (fun m => convertSingleImage tr m.Source m.Source m.Destination) ∧
    (∀ iopts, ImportImages tr iopts (some (blockB [⟨"app:1", "zzz:1"⟩] ["zzz"])) = []) ∧
    (ConvertImages tr copts (some (blockB [⟨"app:1", "zzz:1"⟩] ["zzz"]))).length = 1 ∧
    goContains "zzz:1" "zzz" = true ∧ goContains "app:1" "zzz" = false ∧
    importIsExcluded "zzz:1" ["zzz"] = true ∧
    convertIsExcluded "app:1" ["zzz"] = false := by
  refine ⟨?_, fun iopts => ?_, ?_, by decide, by decide, by decide, by decide⟩
  · simp [ConvertImages, hv, processConvertMappings_eq]
  · simp [ImportImages, validateImportBlock, blockB, processImportMappings,
      show importIsExcluded "zzz:1" ["zzz"] = true from by decide]
  · simp [ConvertImages, validateConvertBlock, blockB, processConvertMappings,
      show convertIsExcluded "app:1" ["zzz"] = false from by decide]

/-- Witness for C9, at the valid block mapping `x → y` with no exclusions. -/
theorem convert_excludes_by_source_witness :
    ConvertImages trOK copts0 (some (blockB [⟨"x", "y"⟩] [])) =
      ((blockB [⟨"x", "y"⟩] []).ImageMappings.filter
          fun m => !convertIsExcluded m.Source (blockB [⟨"x", "y"⟩] []).Exclusions).map
        (fun m => convertSingleImage trOK m.Source m.Source m.Destination) ∧
    (∀ iopts, ImportImages trOK iopts (some (blockB [⟨"app:1", "zzz:1"⟩] ["zzz"])) = []) ∧
    (ConvertImages trOK copts0 (some (blockB [⟨"app:1", "zzz:1"⟩] ["zzz"]))).length = 1 ∧
    goContains "zzz:1" "zzz" = true ∧ goContains "app:1" "zzz" = false ∧
    importIsExcluded "zzz:1" ["zzz"] = true ∧
    convertIsExcluded "app:1" ["zzz"] = false :=
  convert_excludes_by_source trOK copts0 (blockB [⟨"x", "y"⟩] []) rfl

/-- C4 is violated by the code (code bug): on the mapping `a:1 → b:1`,
ExportStage stores the image under the destination reference `b:1` (it succeeds
when only writes to `b:1` can fail nowhere else, fails when writing `b:1`
fails, and reports `b:1` as its LocalImage), yet ConvertStage loads from `a:1`
(it fails when only `b:1` is present in the store and succeeds when only `a:1`
is), and ImportStage also loads from `a:1` rather than from the address
ConvertStage re-registered (`b:1`). The next stage therefore reads an address
the previous stage never wrote whenever Source ≠ Destination. -/
theorem stage_handoff_addresses_mismatch :
    ExportImages trOK eopts0 (some blockAB) = [⟨"a:1", "b:1", none⟩] ∧
    ExportImages (trWriteFailAt "b:1") eopts0 (some blockAB) =
      [⟨"a:1", "b:1", some "failed to save image locally: disk full"⟩] ∧
    ExportImages (trWriteFailAt "a:1") eopts0 (some blockAB) = [⟨"a:1", "b:1", none⟩] ∧
    ConvertImages (trAvail ["b:1"]) copts0 (some blockAB) =
      [⟨"a:1", "a:1", "b:1",
        some "échec du chargement de l'image locale : not found in local storage"⟩] ∧
    ConvertImages (trAvail ["a:1"]) copts0 (some blockAB) =
      [⟨"a:1", "a:1", "b:1", none⟩] ∧
    ImportImages (trAvail ["b:1"]) iopts0 (some blockAB) =
      [⟨"a:1", "b:1", some "failed to load local image: not found in local storage"⟩] ∧
    ImportImages (trAvail ["a:1"]) iopts0 (some blockAB) = [⟨"a:1", "b:1", none⟩] ∧
    ("b:1" : String) ≠ "a:1" := by
  refine ⟨rfl, ?_, rfl, ?_, ?_, ?_, ?_, by decide⟩ <;> decide

/-- C8: on a valid block, both credentials are resolved through the session
before any stage runs; a source-resolution failure yields exactly one error
result tagged EXPORT and a destination-resolution failure exactly one error
result tagged IMPORT, in both cases independently of the transport (so before
any per-image work). -/
theorem creds_resolved_before_stages (tr : Transport) (t : Terminal)
    (options : TransferOptions) (cache : List (String × Credentials)) (b : Block)
    (hv : validateTransferBlock (some b) = none) :
    (∀ e cacheX, sessionGetCredentials t cache b.SourceRegistry.Host = (.error e, cacheX) →
      TransferImages tr t options cache (some b) =
        [⟨some .EXPORT, "", "", "", some ("failed to get source credentials: " ++ e)⟩]) ∧
    (∀ sc cache1 e cacheX,
      sessionGetCredentials t cache b.SourceRegistry.Host = (.ok sc, cache1) →
      sessionGetCredentials t cache1 b.DestinationRegistry.Host = (.error e, cacheX) →
      TransferImages tr t options cache (some b) =
        [⟨some .IMPORT, "", "", "", some ("failed to get destination credentials: " ++ e)⟩]) := by
  constructor
  · intro e cacheX h
    simp [TransferImages, hv, transferBody, h]
  · intro sc cache1 e cacheX h1 h2
    simp [TransferImages, hv, transferBody, h1, h2]

/-- Witness for C8: with an empty cache and a failing terminal the run aborts
with one EXPORT-tagged error; with the source host cached and a failing
terminal it aborts with one IMPORT-tagged error. -/
theorem creds_resolved_before_stages_witness :
    TransferImages trOK termFail (optsR true) [] (some blockAB) =
      [⟨some .EXPORT, "", "", "",
        some "failed to get source credentials: failed to read username: EOF"⟩] ∧
    TransferImages trOK termFail (optsR true) [("src.io", credsA)] (some blockAB) =
      [⟨some .IMPORT, "", "", "",
        some "failed to get destination credentials: failed to read username: EOF"⟩] :=
  ⟨(creds_resolved_before_stages trOK termFail (optsR true) [] blockAB rfl).1
      "failed to read username: EOF" [] rfl,
   (creds_resolved_before_stages trOK termFail (optsR true) [("src.io", credsA)] blockAB
      rfl).2 credsA [("src.io", credsA)] "failed to read username: EOF"
      [("src.io", credsA)] rfl rfl⟩

/-- C3: on a valid block with N mappings of which E are exclusion-matched, a
stage run emits exactly N−E results, one `...SingleImage` result per
non-excluded mapping, in the insertion order of `ImageMappings` (the stream IS
the filtered, mapped list); and a transfer run with `resumeOnError=true` (which
never aborts) forwards all three full stage streams. -/
theorem stage_emits_n_minus_e_results (tr : Transport) (b : Block)
    (eopts : ExportOptions) (copts : ConvertOptions) (iopts : ImportOptions)
    (hE : validateExportBlock (some b) = none)
    (hC : validateConvertBlock (some b) = none)
    (hI : validateImportBlock (some b) = none) :
    (ExportImages tr eopts (some b) =
        (b.ImageMappings.filter fun m => !exportIsExcluded m.Source b.Exclusions).map
          (fun m => exportSingleImage tr m.Source m.Destination
            (exportGetAuthConfig eopts.Credentials)) ∧
      (ExportImages tr eopts (some b)).length =
        b.ImageMappings.length -
          b.ImageMappings.countP (fun m => exportIsExcluded m.Source b.Exclusions)) ∧
    (ConvertImages tr copts (some b) =
        (b.ImageMappings.filter fun m => !convertIsExcluded m.Source b.Exclusions).map
          (fun m => convertSingleImage tr m.Source m.Source m.Destination) ∧
      (ConvertImages tr copts (some b)).length =
        b.ImageMappings.length -
          b.ImageMappings.countP (fun m => convertIsExcluded m.Source b.Exclusions)) ∧
    (ImportImages tr iopts (some b) =
        (b.ImageMappings.filter fun m => !importIsExcluded m.Destination b.Exclusions).map
          (fun m => importSingleImage tr m.Source m.Destination
            (importGetAuthConfig iopts.Credentials)) ∧
      (ImportImages tr iopts (some b)).length =
        b.ImageMappings.length -
          b.ImageMappings.countP (fun m => importIsExcluded m.Destination b.Exclusions)) ∧
    (∀ t cache topts sc cache1 dc cache2,
      topts.ResumeOnError = true →
      validateTransferBlock (some b) = none →
      sessionGetCredentials t cache b.SourceRegistry.Host = (.ok sc, cache1) →
      sessionGetCredentials t cache1 b.DestinationRegistry.Host = (.ok dc, cache2) →
      TransferImages tr t topts cache (some b) =
        (ExportImages tr ⟨topts.CleanOnError, topts.VerboseLevel, some sc⟩
            (some b)).map wrapExport ++
        (ConvertImages tr ⟨topts.CleanOnError, topts.VerboseLevel⟩
            (some b)).map wrapConvert ++
        (ImportImages tr ⟨topts.CleanOnError, topts.VerboseLevel, some dc⟩
            (some b)).map wrapImport) := by
  refine ⟨⟨?_, ?_⟩, ⟨?_, ?_⟩, ⟨?_, ?_⟩, ?_⟩
  · simp [ExportImages, hE, processExportMappings_eq]
  · simp [ExportImages, hE, processExportMappings_eq, filter_not_length]
  · simp [ConvertImages, hC, processConvertMappings_eq]
  · simp [ConvertImages, hC, processConvertMappings_eq, filter_not_length]
  · simp [ImportImages, hI, processImportMappings_eq]
  · simp [ImportImages, hI, processImportMappings_eq, filter_not_length]
  · intro t cache topts sc cache1 dc cache2 hres hvT hs hd
    simp [TransferImages, hvT, transferBody, hs, hd, hres, forwardLoop_resume]

/-- Witness for C3: a block with two mappings of which one is export-excluded
yields one export result (2−1), two convert results (the pattern carries no
marker, so E=0 for convert) and two import results (the pattern occurs in no
Destination). -/
theorem stage_emits_n_minus_e_results_witness :
    (ExportImages trOK eopts0 (some (blockB [⟨"keep:1", "k2:1"⟩, ⟨"drop:1", "d2:1"⟩]
          ["drop"])) =
        ((blockB [⟨"keep:1", "k2:1"⟩, ⟨"drop:1", "d2:1"⟩] ["drop"]).ImageMappings.filter
            fun m => !exportIsExcluded m.Source
              (blockB [⟨"keep:1", "k2:1"⟩, ⟨"drop:1", "d2:1"⟩] ["drop"]).Exclusions).map
          (fun m => exportSingleImage trOK m.Source m.Destination
            (exportGetAuthConfig eopts0.Credentials)) ∧
      (ExportImages trOK eopts0 (some (blockB [⟨"keep:1", "k2:1"⟩, ⟨"drop:1", "d2:1"⟩]
          ["drop"]))).length =
        (blockB [⟨"keep:1", "k2:1"⟩, ⟨"drop:1", "d2:1"⟩] ["drop"]).ImageMappings.length -
          (blockB [⟨"keep:1", "k2:1"⟩, ⟨"drop:1", "d2:1"⟩]
              ["drop"]).ImageMappings.countP
            (fun m => exportIsExcluded m.Source
              (blockB [⟨"keep:1", "k2:1"⟩, ⟨"drop:1", "d2:1"⟩] ["drop"]).Exclusions)) ∧
    (ExportImages trOK eopts0 (some (blockB [⟨"keep:1", "k2:1"⟩, ⟨"drop:1", "d2:1"⟩]
        ["drop"]))).length = 1 ∧
    (ConvertImages trOK copts0 (some (blockB [⟨"keep:1", "k2:1"⟩, ⟨"drop:1", "d2:1"⟩]
        ["drop"]))).length = 2 ∧
    (ImportImages trOK iopts0 (some (blockB [⟨"keep:1", "k2:1"⟩, ⟨"drop:1", "d2:1"⟩]
        ["drop"]))).length = 2 :=
  ⟨(stage_emits_n_minus_e_results trOK
      (blockB [⟨"keep:1", "k2:1"⟩, ⟨"drop:1", "d2:1"⟩] ["drop"])
      eopts0 copts0 iopts0 rfl rfl rfl).1,
   by decide, by decide, by decide⟩

/-- C1: a transfer run on a valid block (with both credential resolutions
succeeding) emits a stream that decomposes into an EXPORT-tagged segment, then a
CONVERT-tagged segment, then an IMPORT-tagged segment — so every EXPORT result
precedes every CONVERT result, and every CONVERT result precedes every IMPORT
result — and each segment is a prefix of the corresponding stage's own stream,
forwarded with that stage's phase tag. -/
theorem transfer_phases_in_order (tr : Transport) (t : Terminal)
    (options : TransferOptions) (cache : List (String × Credentials)) (b : Block)
    (hv : validateTransferBlock (some b) = none)
    (sc : Credentials) (cache1 : List (String × Credentials))
    (hs : sessionGetCredentials t cache b.SourceRegistry.Host = (.ok sc, cache1))
    (dc : Credentials) (cache2 : List (String × Credentials))
    (hd : sessionGetCredentials t cache1 b.DestinationRegistry.Host = (.ok dc, cache2)) :
    ∃ es cs il,
      TransferImages tr t options cache (some b) =
          es.map wrapExport ++ cs.map wrapConvert ++ il.map wrapImport ∧
      (∃ esRest, ExportImages tr ⟨options.CleanOnError, options.VerboseLevel, some sc⟩
          (some b) = es ++ esRest) ∧
      (∃ csRest, ConvertImages tr ⟨options.CleanOnError, options.VerboseLevel⟩
          (some b) = cs ++ csRest) ∧
      (∃ ilRest, ImportImages tr ⟨options.CleanOnError, options.VerboseLevel, some dc⟩
          (some b) = il ++ ilRest) := by
  obtain ⟨esRest, hesR⟩ := forwardLoop_append (fun r : ExportResult => r.Error.isSome)
    options.ResumeOnError
    (ExportImages tr ⟨options.CleanOnError, options.VerboseLevel, some sc⟩ (some b))
  obtain ⟨csRest, hcsR⟩ := forwardLoop_append (fun r : ConvertResult => r.Error.isSome)
    options.ResumeOnError
    (ConvertImages tr ⟨options.CleanOnError, options.VerboseLevel⟩ (some b))
  obtain ⟨ilRest, hilR⟩ := forwardLoop_append (fun r : ImportResult => r.Error.isSome)
    options.ResumeOnError
    (ImportImages tr ⟨options.CleanOnError, options.VerboseLevel, some dc⟩ (some b))
  by_cases hE2 : (forwardLoop (fun r : ExportResult => r.Error.isSome) options.ResumeOnError
      (ExportImages tr ⟨options.CleanOnError, options.VerboseLevel, some sc⟩
        (some b))).2 = true
  · refine ⟨(forwardLoop (fun r : ExportResult => r.Error.isSome) options.ResumeOnError
        (ExportImages tr ⟨options.CleanOnError, options.VerboseLevel, some sc⟩
          (some b))).1, [], [], ?_, ⟨esRest, hesR⟩, ⟨_, rfl⟩, ⟨_, rfl⟩⟩
    simp [TransferImages, hv, transferBody, hs, hd, hE2]
  · by_cases hC2 : (forwardLoop (fun r : ConvertResult => r.Error.isSome)
        options.ResumeOnError
        (ConvertImages tr ⟨options.CleanOnError, options.VerboseLevel⟩ (some b))).2 = true
    · refine ⟨(forwardLoop (fun r : ExportResult => r.Error.isSome) options.ResumeOnError
          (ExportImages tr ⟨options.CleanOnError, options.VerboseLevel, some sc⟩
            (some b))).1,
        (forwardLoop (fun r : ConvertResult => r.Error.isSome) options.ResumeOnError
          (ConvertImages tr ⟨options.CleanOnError, options.VerboseLevel⟩ (some b))).1,
        [], ?_, ⟨esRest, hesR⟩, ⟨csRest, hcsR⟩, ⟨_, rfl⟩⟩
      simp [TransferImages, hv, transferBody, hs, hd, hE2, hC2]
    · refine ⟨(forwardLoop (fun r : ExportResult => r.Error.isSome) options.ResumeOnError
          (ExportImages tr ⟨options.CleanOnError, options.VerboseLevel, some sc⟩
            (some b))).1,
        (forwardLoop (fun r : ConvertResult => r.Error.isSome) options.ResumeOnError
          (ConvertImages tr ⟨options.CleanOnError, options.VerboseLevel⟩ (some b))).1,
        (forwardLoop (fun r : ImportResult => r.Error.isSome) options.ResumeOnError
          (ImportImages tr ⟨options.CleanOnError, options.VerboseLevel, some dc⟩
            (some b))).1,
        ?_, ⟨esRest, hesR⟩, ⟨csRest, hcsR⟩, ⟨ilRest, hilR⟩⟩
      simp [TransferImages, hv, transferBody, hs, hd, hE2, hC2]

/-- Witness for C1, at a one-mapping block with both hosts already cached and an
everywhere-succeeding transport. -/
theorem transfer_phases_in_order_witness :
    ∃ es cs il,
      TransferImages trOK termFail (optsR true) cacheSD (some blockAB) =
          es.map wrapExport ++ cs.map wrapConvert ++ il.map wrapImport ∧
      (∃ esRest, ExportImages trOK
          ⟨(optsR true).CleanOnError, (optsR true).VerboseLevel, some credsA⟩
          (some blockAB) = es ++ esRest) ∧
      (∃ csRest, ConvertImages trOK
          ⟨(optsR true).CleanOnError, (optsR true).VerboseLevel⟩
          (some blockAB) = cs ++ csRest) ∧
      (∃ ilRest, ImportImages trOK
          ⟨(optsR true).CleanOnError, (optsR true).VerboseLevel, some credsA⟩
          (some blockAB) = il ++ ilRest) :=
  transfer_phases_in_order trOK termFail (optsR true) cacheSD blockAB rfl
    credsA cacheSD rfl credsA cacheSD rfl

/-- C2: in a transfer run with `resumeOnError=false`, a phase in which some
processed mapping fails emits everything up to and including its first failing
result and the stream then closes: nothing after the failing result within that
phase and no result of any later phase. -/
theorem no_resume_aborts_at_first_failure (tr : Transport) (t : Terminal)
    (options : TransferOptions) (cache : List (String × Credentials)) (b : Block)
    (hv : validateTransferBlock (some b) = none)
    (sc : Credentials) (cache1 : List (String × Credentials))
    (hs : sessionGetCredentials t cache b.SourceRegistry.Host = (.ok sc, cache1))
    (dc : Credentials) (cache2 : List (String × Credentials))
    (hd : sessionGetCredentials t cache1 b.DestinationRegistry.Host = (.ok dc, cache2))
    (hr : options.ResumeOnError = false) :
    ((ExportImages tr ⟨options.CleanOnError, options.VerboseLevel, some sc⟩
          (some b)).any (fun r => r.Error.isSome) = true →
      TransferImages tr t options cache (some b) =
        (takeThroughFirstErr (fun r => r.Error.isSome)
          (ExportImages tr ⟨options.CleanOnError, options.VerboseLevel, some sc⟩
            (some b))).map wrapExport) ∧
    ((ExportImages tr ⟨options.CleanOnError, options.VerboseLevel, some sc⟩
          (some b)).any (fun r => r.Error.isSome) = false →
      (ConvertImages tr ⟨options.CleanOnError, options.VerboseLevel⟩
          (some b)).any (fun r => r.Error.isSome) = true →
      TransferImages tr t options cache (some b) =
        (ExportImages tr ⟨options.CleanOnError, options.VerboseLevel, some sc⟩
            (some b)).map wrapExport ++
        (takeThroughFirstErr (fun r => r.Error.isSome)
          (ConvertImages tr ⟨options.CleanOnError, options.VerboseLevel⟩
            (some b))).map wrapConvert) ∧
    ((ExportImages tr ⟨options.CleanOnError, options.VerboseLevel, some sc⟩
          (some b)).any (fun r => r.Error.isSome) = false →
      (ConvertImages tr ⟨options.CleanOnError, options.VerboseLevel⟩
          (some b)).any (fun r => r.Error.isSome) = false →
      TransferImages tr t options cache (some b) =
        (ExportImages tr ⟨options.CleanOnError, options.VerboseLevel, some sc⟩
            (some b)).map wrapExport ++
        (ConvertImages tr ⟨options.CleanOnError, options.VerboseLevel⟩
            (some b)).map wrapConvert ++
        (takeThroughFirstErr (fun r => r.Error.isSome)
          (ImportImages tr ⟨options.CleanOnError, options.VerboseLevel, some dc⟩
            (some b))).map wrapImport) := by
  refine ⟨fun hAnyE => ?_, fun hAnyE hAnyC => ?_, fun hAnyE hAnyC => ?_⟩
  · simp [TransferImages, hv, transferBody, hs, hd, hr, forwardLoop_no_resume, hAnyE]
  · simp [TransferImages, hv, transferBody, hs, hd, hr, forwardLoop_no_resume, hAnyE,
      hAnyC, takeThroughFirstErr_of_no_err _ _ hAnyE]
  · simp [TransferImages, hv, transferBody, hs, hd, hr, forwardLoop_no_resume, hAnyE,
      hAnyC, takeThroughFirstErr_of_no_err _ _ hAnyE,
      takeThroughFirstErr_of_no_err _ _ hAnyC]

/-- Witness for C2 (the spec's Scenario C): three mappings, the export of the
second fails; the merged stream is exactly the two EXPORT-tagged results (one
success, one failure) and nothing else. -/
theorem no_resume_aborts_at_first_failure_witness :
    (ExportImages (trGetFailAt "a2:1")
        ⟨(optsR false).CleanOnError, (optsR false).VerboseLevel, some credsA⟩
        (some (blockB [⟨"a1:1", "b1:1"⟩, ⟨"a2:1", "b2:1"⟩, ⟨"a3:1", "b3:1"⟩] []))).any
      (fun r => r.Error.isSome) = true ∧
    TransferImages (trGetFailAt "a2:1") termFail (optsR false) cacheSD
        (some (blockB [⟨"a1:1", "b1:1"⟩, ⟨"a2:1", "b2:1"⟩, ⟨"a3:1", "b3:1"⟩] [])) =
      (takeThroughFirstErr (fun r => r.Error.isSome)
        (ExportImages (trGetFailAt "a2:1")
          ⟨(optsR false).CleanOnError, (optsR false).VerboseLevel, some credsA⟩
          (some (blockB [⟨"a1:1", "b1:1"⟩, ⟨"a2:1", "b2:1"⟩, ⟨"a3:1", "b3:1"⟩]
            [])))).map wrapExport ∧
    (takeThroughFirstErr (fun r => r.Error.isSome)
      (ExportImages (trGetFailAt "a2:1")
        ⟨(optsR false).CleanOnError, (optsR false).VerboseLevel, some credsA⟩
        (some (blockB [⟨"a1:1", "b1:1"⟩, ⟨"a2:1", "b2:1"⟩, ⟨"a3:1", "b3:1"⟩]
          [])))).length = 2 :=
  ⟨by decide,
   (no_resume_aborts_at_first_failure (trGetFailAt "a2:1") termFail (optsR false) cacheSD
      (blockB [⟨"a1:1", "b1:1"⟩, ⟨"a2:1", "b2:1"⟩, ⟨"a3:1", "b3:1"⟩] []) rfl
      credsA cacheSD rfl credsA cacheSD rfl rfl).1 (by decide),
   by decide⟩

/-- C5 (amended): the AuthHandler credential store resolves in the claimed
chain — cached entry on a cache hit; on a miss, environment lookup under the
names derived by the host transform (uppercase, then `.`/`/`/`-` replaced by
`_`), cached on success; only on a further environment miss the interactive
prompt, cached on success. The Session store — the one the CLI and the transfer
orchestrator actually use — skips the environment step: on a cache miss it
prompts directly and caches. In both stores a successful resolution is cached
for the rest of the process: resolving the same host again returns the same
credentials and leaves the cache unchanged. -/
theorem credential_resolution_chain (env : String → String) (t : Terminal)
    (configs : List (String × Credentials)) (host : String) :
    (∀ c, sessionLookup configs host = some c →
        authGetCredentials env t configs host = (.ok c, configs) ∧
        sessionGetCredentials t configs host = (.ok c, configs)) ∧
    (sessionLookup configs host = none →
      (∀ c, getCredsFromEnv env host = .ok c →
          authGetCredentials env t configs host = (.ok c, (host, c) :: configs)) ∧
      (∀ e, getCredsFromEnv env host = .error e →
          authGetCredentials env t configs host =
            (match authPromptCredentials t host with
             | .error e2 => (.error e2, configs)
             | .ok c => (.ok c, (host, c) :: configs))) ∧
      sessionGetCredentials t configs host =
        (match sessionPromptCredentials t host with
         | .error e => (.error e, configs)
         | .ok c => (.ok c, (host, c) :: configs))) ∧
    (∀ c, getCredsFromEnv env host = .ok c →
        c = ⟨env (hostEnvKey host ++ "_USERNAME"), env (hostEnvKey host ++ "_PASSWORD"),
              base64EncodeStr (env (hostEnvKey host ++ "_USERNAME") ++ ":" ++
                env (hostEnvKey host ++ "_PASSWORD"))⟩ ∧
        env (hostEnvKey host ++ "_USERNAME") ≠ "" ∧
        env (hostEnvKey host ++ "_PASSWORD") ≠ "") ∧
    (∀ c configs2, authGetCredentials env t configs host = (.ok c, configs2) →
        authGetCredentials env t configs2 host = (.ok c, configs2)) ∧
    (∀ c configs2, sessionGetCredentials t configs host = (.ok c, configs2) →
        sessionGetCredentials t configs2 host = (.ok c, configs2)) := by
  refine ⟨fun c hc => ?_, fun hmiss => ⟨fun c hc => ?_, fun e he => ?_, ?_⟩,
    fun c hc => ?_, fun c configs2 h => ?_, fun c configs2 h => ?_⟩
  · exact ⟨by simp [authGetCredentials, hc], by simp [sessionGetCredentials, hc]⟩
  · simp [authGetCredentials, hmiss, hc]
  · simp [authGetCredentials, hmiss, he]
  · simp [sessionGetCredentials, hmiss]
  · unfold getCredsFromEnv at hc
    by_cases hz : env (hostEnvKey host ++ "_USERNAME") = "" ∨
        env (hostEnvKey host ++ "_PASSWORD") = ""
    · rw [if_pos (by simpa using hz)] at hc
      cases hc
    · rw [if_neg (by simpa using hz)] at hc
      cases hc
      push_neg at hz
      exact ⟨rfl, hz.1, hz.2⟩
  · unfold authGetCredentials at h ⊢
    cases hl : sessionLookup configs host with
    | some c0 =>
      rw [hl] at h
      cases h
      simp [hl]
    | none =>
      rw [hl] at h
      cases henv : getCredsFromEnv env host with
      | ok ce =>
        rw [henv] at h
        cases h
        simp [sessionLookup]
      | error ee =>
        rw [henv] at h
        cases hp : authPromptCredentials t host with
        | error pe => rw [hp] at h; cases h
        | ok cp =>
          rw [hp] at h
          cases h
          simp [sessionLookup]
  · unfold sessionGetCredentials at h ⊢
    cases hl : sessionLookup configs host with
    | some c0 =>
      rw [hl] at h
      cases h
      simp [hl]
    | none =>
      rw [hl] at h
      cases hp : sessionPromptCredentials t host with
      | error pe => rw [hp] at h; cases h
      | ok cp =>
        rw [hp] at h
        cases h
        simp [sessionLookup]

/-- Witness for C5 (amended), instantiated three ways: a cache hit returns the
cached entry in both stores; on a miss with a complete environment pair the
AuthHandler store returns and caches the environment credentials; resolving
again after a successful resolution is stable. -/
theorem credential_resolution_chain_witness :
    (authGetCredentials env5 termOK [("h", credsA)] "h" = (.ok credsA, [("h", credsA)]) ∧
      sessionGetCredentials termOK [("h", credsA)] "h" = (.ok credsA, [("h", credsA)])) ∧
    authGetCredentials env5 termOK [] "example.com" =
      (.ok ⟨"eu", "ep", base64EncodeStr "eu:ep"⟩,
        [("example.com", ⟨"eu", "ep", base64EncodeStr "eu:ep"⟩)]) ∧
    authGetCredentials env5 termOK
        [("example.com", ⟨"eu", "ep", base64EncodeStr "eu:ep"⟩)] "example.com" =
      (.ok ⟨"eu", "ep", base64EncodeStr "eu:ep"⟩,
        [("example.com", ⟨"eu", "ep", base64EncodeStr "eu:ep"⟩)]) :=
  ⟨(credential_resolution_chain env5 termOK [("h", credsA)] "h").1 credsA rfl,
   ((credential_resolution_chain env5 termOK [] "example.com").2.1 rfl).1
     ⟨"eu", "ep", base64EncodeStr "eu:ep"⟩ rfl,
   (credential_resolution_chain env5 termOK [] "example.com").2.2.2.1
     ⟨"eu", "ep", base64EncodeStr "eu:ep"⟩
     [("example.com", ⟨"eu", "ep", base64EncodeStr "eu:ep"⟩)]
     (((credential_resolution_chain env5 termOK [] "example.com").2.1 rfl).1
       ⟨"eu", "ep", base64EncodeStr "eu:ep"⟩ rfl)⟩

end Magina
